import Mathlib

/-!
# Verification of the ANGLE GL vertex-array synchronization engine

Shallow embedding of `src/libANGLE/renderer/gl/VertexArrayGL.cpp`: the
vertex-attribute binding synchronization engine that diffs a high-level
snapshot of vertex-array state against a cache of the state last pushed to
the GL device, streams client-memory data into device buffers, and applies
the instanced-draw offset workaround.

Modelling conventions:
  * machine integers (`GLuint`, `size_t`, `GLintptr`) are `Nat` (all the
    quantities involved are non-negative in the source);
  * `angle::Format const *` pointers are modelled by a small value record
    compared by value (distinct formats have distinct pointers in ANGLE's
    format table, so pointer equality coincides with value equality);
  * buffer objects are identified by their GL id (`Nat`); `Option Nat`
    stands for `gl::Buffer *` with `none` for a null buffer;
  * calls into the device function table and state manager are reified as a
    `DeviceCall` trace; pure data movement (`memcpy`) has no observable
    effect in the model and is not recorded;
  * `gl::AttributesMask` (a fixed-size bitset) is a `List Bool`; the
    per-attribute first-offset array is a `List Nat`;
  * collaborators outside this excerpt (`ComputeVertexAttributeTypeSize`,
    `ComputeVertexAttributeStride`, buffer id generation, the buffer's
    cached index-range query, unmap results) are oracle fields of `Env`.
-/

namespace VertexArrayGL

/-- Value model of `angle::Format const *`: an identifying tag plus the one
field the pointer-setting path branches on (`isPureInt`). -/
structure Format where
  id : Nat
  pureInt : Bool
  deriving DecidableEq, Repr

/-- Mirror of `gl::VertexAttribute` (the fields this engine reads):
enabled flag, format, relative offset, binding index, and the client-memory
pointer (`none` = null pointer, `some p` = a client address). -/
structure VertexAttribute where
  enabled : Bool
  format : Format
  relativeOffset : Nat
  bindingIndex : Nat
  pointer : Option Nat
  deriving DecidableEq, Repr

/-- Mirror of `gl::VertexBinding`: buffer object (by GL id), stride, offset,
divisor. -/
structure VertexBinding where
  buffer : Option Nat
  stride : Nat
  offset : Nat
  divisor : Nat
  deriving DecidableEq, Repr

def defaultAttribute : VertexAttribute :=
  { enabled := false, format := ⟨0, false⟩, relativeOffset := 0, bindingIndex := 0,
    pointer := none }

def defaultBinding : VertexBinding :=
  { buffer := none, stride := 0, offset := 0, divisor := 0 }

/-- Buffer binding targets used by this engine. -/
inductive BufferTarget where
  | array
  | elementArray
  deriving DecidableEq, Repr

/-- Reified calls to the device function table / state manager / buffer
abstraction, in program order. -/
inductive DeviceCall where
  | bindBuffer (target : BufferTarget) (bufferId : Nat)
  | bindVertexArray (vaoId : Nat) (elementArrayBufferId : Nat)
  | enableVertexAttribArray (attribIndex : Nat)
  | disableVertexAttribArray (attribIndex : Nat)
  | vertexAttribPointer (attribIndex : Nat) (format : Format) (stride : Nat) (offset : Nat)
  | vertexAttribIPointer (attribIndex : Nat) (format : Format) (stride : Nat) (offset : Nat)
  | vertexAttribFormat (attribIndex : Nat) (format : Format) (relativeOffset : Nat)
  | vertexAttribIFormat (attribIndex : Nat) (format : Format) (relativeOffset : Nat)
  | vertexAttribBinding (attribIndex : Nat) (bindingIndex : Nat)
  | bindVertexBuffer (bindingIndex : Nat) (bufferId : Nat) (offset : Nat) (stride : Nat)
  | vertexBindingDivisor (bindingIndex : Nat) (divisor : Nat)
  | vertexAttribDivisor (attribIndex : Nat) (divisor : Nat)
  | genBuffers
  | bufferData (target : BufferTarget) (size : Nat)
  | bufferSubData (target : BufferTarget) (offset : Nat) (size : Nat)
  | mapBufferRange (target : BufferTarget) (offset : Nat) (size : Nat)
  | unmapBuffer (target : BufferTarget)
  | getIndexRangeQuery (offset : Nat) (count : Nat)
  deriving DecidableEq, Repr

/-- `angle::Result`: `Continue`, or the one error this subsystem generates
itself (`ANGLE_CHECK(..., GL_OUT_OF_MEMORY)`). -/
inductive AngleResult where
  | Continue
  | OutOfMemory
  deriving DecidableEq, Repr

/-- The snapshot (`mState`): the authoritative vertex-array configuration,
read-only during a sync. -/
structure Snapshot where
  attribs : List VertexAttribute
  bindings : List VertexBinding
  elementArrayBuffer : Option Nat
  deriving DecidableEq, Repr

/-- The mutable per-vertex-array state owned by `VertexArrayGL`: the
applied-state cache, streaming buffers, and workaround masks. -/
structure VAState where
  vertexArrayID : Nat
  appliedNumViews : Nat
  appliedElementArrayBuffer : Option Nat
  appliedAttributes : List VertexAttribute
  appliedBindings : List VertexBinding
  streamingElementArrayBufferSize : Nat
  streamingElementArrayBuffer : Nat
  streamingArrayBufferSize : Nat
  streamingArrayBuffer : Nat
  instancedAttributesMask : List Bool
  forcedStreamingAttributesForDrawArraysInstancedMask : List Bool
  forcedStreamingAttributesFirstOffsets : List Nat
  programActiveAttribLocationsMask : List Bool
  deriving DecidableEq, Repr

/-- `gl::IndexRange`: inclusive `[start, end]` vertex index interval.
Modelled from the spec: the `gl::IndexRange` type lives outside this
excerpt; the spec describes it as a "[start, end] inclusive vertex index
interval". -/
structure IndexRange where
  start : Nat
  stop : Nat
  deriving DecidableEq, Repr

/-- Modelled from the spec: `IndexRange::vertexCount()` (outside this
excerpt) is "the vertex count implied by the index range", i.e. the size of
the inclusive interval. -/
def IndexRange.vertexCount (r : IndexRange) : Nat :=
  r.stop - r.start + 1

/-- Modelled from the spec: `ComputeVertexBindingElementCount` (outside this
excerpt). Per the spec, the streamed element count "for a divisor-0
attribute is the vertex count implied by the index range, and for divisor>0
is ceil(instanceCount / adjustedDivisor)". -/
def ComputeVertexBindingElementCount (divisor drawCount instanceCount : Nat) : Nat :=
  if 0 < divisor then (instanceCount + divisor - 1) / divisor else drawCount

/-- Oracles for collaborators outside this excerpt. -/
structure Env where
  /-- `ComputeVertexAttributeTypeSize(attrib)` -/
  typeSize : VertexAttribute → Nat
  /-- `ComputeVertexAttributeStride(attrib, binding)` -/
  sourceStride : VertexAttribute → VertexBinding → Nat
  /-- `functions->vertexAttribBinding != nullptr` -/
  supportBinding : Bool
  /-- result of the k-th `unmapBuffer` on the streaming array buffer -/
  unmapOk : Nat → Bool
  /-- `gl::GetDrawElementsTypeSize(type)` -/
  indexTypeBytes : Nat
  /-- result of `elementArrayBuffer->getIndexRange(...)` -/
  bufferIndexRange : IndexRange
  /-- result of `ComputeIndexRange(type, indices, count, primitiveRestart)` -/
  computedIndexRange : IndexRange
  /-- `features.shiftInstancedArrayDataWithExtraOffset.enabled` -/
  shiftInstancedArrayDataWithExtraOffset : Bool
  /-- id handed out by `genBuffers` for the streaming array buffer -/
  freshArrayBufferId : Nat
  /-- id handed out by `genBuffers` for the streaming element array buffer -/
  freshElementArrayBufferId : Nat

/-- Bitset bit test (`mask.test(i)` / `mask[i]`). -/
def maskTest (mask : List Bool) (i : Nat) : Bool :=
  mask.getD i false

/-- Bitset bit set/reset (`mask.set(i)` / `mask.reset(i)`). -/
def maskSet (mask : List Bool) (i : Nat) (b : Bool) : List Bool :=
  mask.set i b

/-- `mask.any()`. -/
def maskAny (mask : List Bool) : Bool :=
  mask.any id

/-- `mask.count()`: number of set bits. -/
def maskCount (mask : List Bool) : Nat :=
  mask.count true

/-- Iteration over the set bits of a bitset in increasing index order
(`for (auto idx : mask)`). -/
def maskIndices (mask : List Bool) : List Nat :=
  (List.range mask.length).filter (fun i => maskTest mask i)

/-- `SameVertexAttribFormat` (VertexArrayGL.cpp:31). -/
def SameVertexAttribFormat (a b : VertexAttribute) : Bool :=
  a.format == b.format && a.relativeOffset == b.relativeOffset

/-- `SameVertexBuffer` (VertexArrayGL.cpp:36). -/
def SameVertexBuffer (a b : VertexBinding) : Bool :=
  a.stride == b.stride && a.offset == b.offset && a.buffer == b.buffer

/-- `IsVertexAttribPointerSupported` (VertexArrayGL.cpp:42). -/
def IsVertexAttribPointerSupported (attribIndex : Nat) (attrib : VertexAttribute) : Bool :=
  attribIndex == attrib.bindingIndex && attrib.relativeOffset == 0

/-- `GetAdjustedDivisor` (VertexArrayGL.cpp:47). -/
def GetAdjustedDivisor (numViews divisor : Nat) : Nat :=
  numViews * divisor

/-- `VertexArrayGL::callVertexAttribPointer` (VertexArrayGL.cpp:674): one
`vertexAttribIPointer` call for pure-integer formats, else one
`vertexAttribPointer` call. -/
def callVertexAttribPointer (attribIndex : Nat) (attrib : VertexAttribute)
    (stride offset : Nat) : List DeviceCall :=
  if attrib.format.pureInt then
    [DeviceCall.vertexAttribIPointer attribIndex attrib.format stride offset]
  else
    [DeviceCall.vertexAttribPointer attribIndex attrib.format stride offset]

/-- `VertexArrayGL::updateAttribEnabled` (VertexArrayGL.cpp:591).
`active` is `mProgramActiveAttribLocationsMask.test(attribIndex)`.
Returns the new applied attribute and the device calls issued. -/
def updateAttribEnabled (attribIndex : Nat) (attrib : VertexAttribute) (active : Bool)
    (applied : VertexAttribute) : VertexAttribute × List DeviceCall :=
  let enabled := attrib.enabled && active
  if applied.enabled == enabled then
    (applied, [])
  else
    ({ applied with enabled := enabled },
     [if enabled then DeviceCall.enableVertexAttribArray attribIndex
      else DeviceCall.disableVertexAttribArray attribIndex])

/-- `VertexArrayGL::updateAttribPointer` (VertexArrayGL.cpp:614).
`binding` is `mState.getVertexBinding(attribIndex)` (indexed by the
attribute index, per the comment in the source), `applied` /
`appliedBinding` are `mAppliedAttributes[attribIndex]` /
`mAppliedBindings[attribIndex]`. -/
def updateAttribPointer (attribIndex : Nat) (attrib : VertexAttribute)
    (binding : VertexBinding) (applied : VertexAttribute) (appliedBinding : VertexBinding) :
    VertexAttribute × VertexBinding × List DeviceCall :=
  match binding.buffer with
  | none =>
    (applied, { appliedBinding with buffer := none }, [])
  | some arrayBufferId =>
    if SameVertexAttribFormat applied attrib
        && applied.bindingIndex == attrib.bindingIndex
        && SameVertexBuffer appliedBinding binding then
      (applied, appliedBinding, [])
    else
      ({ applied with format := attrib.format, relativeOffset := 0,
                      bindingIndex := attribIndex },
       { appliedBinding with stride := binding.stride, offset := binding.offset,
                             buffer := some arrayBufferId },
       DeviceCall.bindBuffer BufferTarget.array arrayBufferId ::
         callVertexAttribPointer attribIndex attrib binding.stride binding.offset)

/-- `VertexArrayGL::updateAttribFormat` (VertexArrayGL.cpp:704). -/
def updateAttribFormat (attribIndex : Nat) (attrib : VertexAttribute)
    (applied : VertexAttribute) : VertexAttribute × List DeviceCall :=
  if SameVertexAttribFormat applied attrib then
    (applied, [])
  else
    ({ applied with format := attrib.format, relativeOffset := attrib.relativeOffset },
     [if attrib.format.pureInt then
        DeviceCall.vertexAttribIFormat attribIndex attrib.format attrib.relativeOffset
      else
        DeviceCall.vertexAttribFormat attribIndex attrib.format attrib.relativeOffset])

/-- `VertexArrayGL::updateAttribBinding` (VertexArrayGL.cpp:735).
`bindingIndex` is `mState.getVertexAttribute(attribIndex).bindingIndex`. -/
def updateAttribBinding (attribIndex : Nat) (bindingIndex : Nat)
    (applied : VertexAttribute) : VertexAttribute × List DeviceCall :=
  if applied.bindingIndex == bindingIndex then
    (applied, [])
  else
    ({ applied with bindingIndex := bindingIndex },
     [DeviceCall.vertexAttribBinding attribIndex bindingIndex])

/-- `VertexArrayGL::updateBindingBuffer` (VertexArrayGL.cpp:751). -/
def updateBindingBuffer (bindingIndex : Nat) (binding : VertexBinding)
    (applied : VertexBinding) : VertexBinding × List DeviceCall :=
  if SameVertexBuffer applied binding then
    (applied, [])
  else
    let bufferId := match binding.buffer with
      | some b => b
      | none => 0
    ({ applied with stride := binding.stride, offset := binding.offset,
                    buffer := binding.buffer },
     [DeviceCall.bindVertexBuffer bindingIndex bufferId binding.offset binding.stride])

/-- `VertexArrayGL::updateBindingDivisor` (VertexArrayGL.cpp:777).
`snapshotDivisor` is `mState.getVertexBinding(bindingIndex).getDivisor()`;
also threads the instanced-attribute mask. -/
def updateBindingDivisor (bindingIndex : Nat) (snapshotDivisor numViews : Nat)
    (supportBinding : Bool) (applied : VertexBinding) (instancedMask : List Bool) :
    VertexBinding × List Bool × List DeviceCall :=
  let adjustedDivisor := GetAdjustedDivisor numViews snapshotDivisor
  if applied.divisor == adjustedDivisor then
    (applied, instancedMask, [])
  else
    let calls := [if supportBinding then
                    DeviceCall.vertexBindingDivisor bindingIndex adjustedDivisor
                  else
                    DeviceCall.vertexAttribDivisor bindingIndex adjustedDivisor]
    let mask :=
      if 0 < adjustedDivisor then
        maskSet instancedMask bindingIndex true
      else if maskTest instancedMask bindingIndex then
        maskSet instancedMask bindingIndex false
      else
        instancedMask
    ({ applied with divisor := adjustedDivisor }, mask, calls)

/-- `VertexArrayGL::getAppliedElementArrayBufferID` (VertexArrayGL.cpp:581). -/
def getAppliedElementArrayBufferID (st : VAState) : Nat :=
  match st.appliedElementArrayBuffer with
  | none => st.streamingElementArrayBuffer
  | some bufferId => bufferId

/-- Streaming-buffer growth policy shared by `streamAttributes`
(VertexArrayGL.cpp:378) and `syncIndexData` (VertexArrayGL.cpp:290):
reallocate to exactly the required size when it exceeds the current
capacity, otherwise keep the buffer. Returns the new capacity and whether
a `bufferData` reallocation was issued. -/
def growStreamingBuffer (requiredSize capacity : Nat) : Nat × Bool :=
  if capacity < requiredSize then (requiredSize, true) else (capacity, false)

/-- Loop body of `VertexArrayGL::computeStreamingAttributeSizes`
(VertexArrayGL.cpp:326): accumulate the total streaming size and the
maximum single-attribute element size. -/
def streamingSizeStep (env : Env) (snap : Snapshot) (numViews instanceCount : Nat)
    (indexRange : IndexRange) (acc : Nat × Nat) (idx : Nat) : Nat × Nat :=
  let attrib := snap.attribs.getD idx defaultAttribute
  let binding := snap.bindings.getD attrib.bindingIndex defaultBinding
  let typeSize := env.typeSize attrib
  let adjustedDivisor := GetAdjustedDivisor numViews binding.divisor
  (acc.1 + typeSize *
     ComputeVertexBindingElementCount adjustedDivisor indexRange.vertexCount instanceCount,
   max acc.2 typeSize)

/-- `VertexArrayGL::computeStreamingAttributeSizes` (VertexArrayGL.cpp:312).
Returns `(outStreamingDataSize, outMaxAttributeDataSize)`. -/
def computeStreamingAttributeSizes (env : Env) (snap : Snapshot) (numViews : Nat)
    (attribsToStream : List Bool) (instanceCount : Nat) (indexRange : IndexRange) :
    Nat × Nat :=
  (maskIndices attribsToStream).foldl
    (streamingSizeStep env snap numViews instanceCount indexRange) (0, 0)

/-- The required streaming buffer size computed in
`VertexArrayGL::streamAttributes` (VertexArrayGL.cpp:371-375): the
streamed data size plus the slack space
`attribsToStream.count() * maxAttributeDataSize * indexRange.start`
reserved at the buffer head so a nonzero `first` can still be passed to
the draw call. -/
def streamAttributesRequiredSize (env : Env) (snap : Snapshot) (numViews : Nat)
    (attribsToStream : List Bool) (instanceCount : Nat) (indexRange : IndexRange) : Nat :=
  let sizes := computeStreamingAttributeSizes env snap numViews attribsToStream
    instanceCount indexRange
  sizes.1 + maskCount attribsToStream * sizes.2 * indexRange.start

/-- Accumulator for one fill pass of the streaming loop: the running buffer
write offset, the applied-state cache being updated, and the call trace. -/
structure FillAcc where
  curBufferOffset : Nat
  appliedAttributes : List VertexAttribute
  appliedBindings : List VertexBinding
  calls : List DeviceCall
  deriving Repr

/-- Common tail of the per-attribute fill body (VertexArrayGL.cpp:489-516):
unmap/rebind when the workaround mapped an input buffer, issue the pointer
call at the computed zero-index offset, update the applied-state cache to
track the streamed attribute, and advance the write offset. The `memcpy`
of vertex data is pure data movement and is not recorded. -/
def finishFill (streamingArrayBuffer maxAttributeDataSize rangeStart : Nat)
    (acc : FillAcc) (idx : Nat) (attrib : VertexAttribute)
    (destStride firstIndex streamedVertexCount : Nat)
    (preCalls : List DeviceCall) (needsUnmapAndRebind : Bool) : FillAcc :=
  let unmapCalls :=
    if needsUnmapAndRebind then
      [DeviceCall.unmapBuffer BufferTarget.array,
       DeviceCall.bindBuffer BufferTarget.array streamingArrayBuffer]
    else []
  let vertexStartOffset := acc.curBufferOffset - firstIndex * destStride
  let pointerCalls := callVertexAttribPointer idx attrib destStride vertexStartOffset
  let newAttr :=
    { acc.appliedAttributes.getD idx defaultAttribute with
      format := attrib.format, relativeOffset := 0, bindingIndex := idx }
  let newBind :=
    { acc.appliedBindings.getD idx defaultBinding with
      stride := destStride, offset := vertexStartOffset, buffer := none }
  { curBufferOffset :=
      acc.curBufferOffset + destStride * streamedVertexCount +
        maxAttributeDataSize * rangeStart,
    appliedAttributes := acc.appliedAttributes.set idx newAttr,
    appliedBindings := acc.appliedBindings.set idx newBind,
    calls := acc.calls ++ preCalls ++ unmapCalls ++ pointerCalls }

/-- Per-attribute body of the fill pass in `VertexArrayGL::streamAttributes`
(VertexArrayGL.cpp:400-516), including the instanced-offset workaround
branch (lines 433-468): the streamed vertex count is recomputed, and a
buffer-backed instanced attribute is read back through a mapped input
buffer; a workaround attribute with neither buffer nor client pointer is
skipped (`continue`). -/
def streamAttribFillStep (env : Env) (snap : Snapshot) (applyWorkaround : Bool)
    (numViews maxAttributeDataSize instanceCount : Nat) (indexRange : IndexRange)
    (streamingArrayBuffer : Nat) (acc : FillAcc) (idx : Nat) : FillAcc :=
  let attrib := snap.attribs.getD idx defaultAttribute
  let binding := snap.bindings.getD attrib.bindingIndex defaultBinding
  let adjustedDivisor := GetAdjustedDivisor numViews binding.divisor
  let streamedVertexCount :=
    ComputeVertexBindingElementCount adjustedDivisor indexRange.vertexCount instanceCount
  let sourceStride := env.sourceStride attrib binding
  let destStride := env.typeSize attrib
  let firstIndex :=
    if adjustedDivisor == 0 || applyWorkaround then indexRange.start else 0
  if applyWorkaround && 0 < adjustedDivisor then
    let workaroundVertexCount :=
      (instanceCount + indexRange.start + adjustedDivisor - 1) / adjustedDivisor
    let copySize := sourceStride * streamedVertexCount
    match binding.buffer with
    | none =>
      if attrib.pointer == none then
        acc
      else
        finishFill streamingArrayBuffer maxAttributeDataSize indexRange.start acc idx
          attrib destStride firstIndex workaroundVertexCount [] false
    | some inputBufferId =>
      finishFill streamingArrayBuffer maxAttributeDataSize indexRange.start acc idx
        attrib destStride firstIndex workaroundVertexCount
        [DeviceCall.bindBuffer BufferTarget.array inputBufferId,
         DeviceCall.mapBufferRange BufferTarget.array binding.offset copySize] true
  else
    finishFill streamingArrayBuffer maxAttributeDataSize indexRange.start acc idx
      attrib destStride firstIndex streamedVertexCount [] false

/-- One fill-and-unmap cycle of `VertexArrayGL::streamAttributes`
(VertexArrayGL.cpp:391-518): map the streaming buffer for writing, fill
every streamed attribute, unmap. -/
def streamFillCycle (env : Env) (snap : Snapshot) (applyWorkaround : Bool)
    (numViews maxAttributeDataSize instanceCount : Nat) (indexRange : IndexRange)
    (streamingArrayBuffer requiredBufferSize : Nat) (attribsToStream : List Bool)
    (fillState : List VertexAttribute × List VertexBinding) :
    (List VertexAttribute × List VertexBinding) × List DeviceCall :=
  let init : FillAcc :=
    { curBufferOffset := maxAttributeDataSize * indexRange.start,
      appliedAttributes := fillState.1,
      appliedBindings := fillState.2,
      calls := [DeviceCall.mapBufferRange BufferTarget.array 0 requiredBufferSize] }
  let acc := (maskIndices attribsToStream).foldl
    (streamAttribFillStep env snap applyWorkaround numViews maxAttributeDataSize
      instanceCount indexRange streamingArrayBuffer) init
  ((acc.appliedAttributes, acc.appliedBindings),
   acc.calls ++ [DeviceCall.unmapBuffer BufferTarget.array])

/-- The unmap retry loop of `VertexArrayGL::streamAttributes`
(VertexArrayGL.cpp:389-391):
`unmapResult = GL_FALSE; attempts = 5;`
`while (unmapResult != GL_TRUE && --attempts > 0) { fill; unmap; }`.
`unmapOk k` is the result of the k-th unmap. Returns the final fill state,
the accumulated calls, the number of fill-and-unmap cycles performed, and
the final `unmapResult`. -/
def streamLoop (cycle : (List VertexAttribute × List VertexBinding) →
      (List VertexAttribute × List VertexBinding) × List DeviceCall)
    (unmapOk : Nat → Bool) :
    Nat → Bool → Nat → (List VertexAttribute × List VertexBinding) →
      List DeviceCall →
      (List VertexAttribute × List VertexBinding) × List DeviceCall × Nat × Bool
  | 0, unmapResult, cycles, fillState, acc =>
    -- not reachable from the call site: the loop always starts at 5 and
    -- exits as soon as the decremented counter hits 0
    (fillState, acc, cycles, unmapResult)
  | attempts + 1, unmapResult, cycles, fillState, acc =>
    if unmapResult then
      (fillState, acc, cycles, true)
    else if 0 < attempts then
      -- `--unmapRetryAttempts > 0` with the counter at `attempts + 1`
      let r := cycle fillState
      streamLoop cycle unmapOk attempts (unmapOk cycles) (cycles + 1) r.1 (acc ++ r.2)
    else
      (fillState, acc, cycles, unmapResult)

/-- `VertexArrayGL::streamAttributes` (VertexArrayGL.cpp:343). Returns the
new state, the call trace, the number of fill-and-unmap cycles performed
(an instrumentation counter), and the result: `Continue`, or `OutOfMemory`
when the final `unmapResult` is still false
(`ANGLE_CHECK(..., GL_OUT_OF_MEMORY)`, line 521). -/
def streamAttributes (env : Env) (snap : Snapshot) (st : VAState)
    (attribsToStream : List Bool) (instanceCount : Nat) (indexRange : IndexRange)
    (applyExtraOffsetWorkaroundForInstancedAttributes : Bool) :
    VAState × List DeviceCall × Nat × AngleResult :=
  let sizes := computeStreamingAttributeSizes env snap st.appliedNumViews attribsToStream
    instanceCount indexRange
  let streamingDataSize := sizes.1
  let maxAttributeDataSize := sizes.2
  if streamingDataSize == 0 then
    (st, [], 0, AngleResult.Continue)
  else
    let gen :=
      if st.streamingArrayBuffer == 0 then
        (env.freshArrayBufferId, 0, [DeviceCall.genBuffers])
      else
        (st.streamingArrayBuffer, st.streamingArrayBufferSize, ([] : List DeviceCall))
    let requiredBufferSize := streamAttributesRequiredSize env snap st.appliedNumViews
      attribsToStream instanceCount indexRange
    let grow := growStreamingBuffer requiredBufferSize gen.2.1
    let allocCalls :=
      if grow.2 then [DeviceCall.bufferData BufferTarget.array requiredBufferSize] else []
    let loop := streamLoop
      (streamFillCycle env snap applyExtraOffsetWorkaroundForInstancedAttributes
        st.appliedNumViews maxAttributeDataSize instanceCount indexRange gen.1
        requiredBufferSize attribsToStream)
      env.unmapOk 5 false 0 (st.appliedAttributes, st.appliedBindings) []
    ({ st with streamingArrayBuffer := gen.1, streamingArrayBufferSize := grow.1,
               appliedAttributes := loop.1.1, appliedBindings := loop.1.2 },
     gen.2.2 ++ [DeviceCall.bindBuffer BufferTarget.array gen.1] ++ allocCalls ++
       [DeviceCall.bindVertexArray st.vertexArrayID (getAppliedElementArrayBufferID st)] ++
       loop.2.1,
     loop.2.2.1,
     if loop.2.2.2 then AngleResult.Continue else AngleResult.OutOfMemory)

/-- `VertexArrayGL::syncIndexData` (VertexArrayGL.cpp:231). `indicesOffset`
is the `indices` argument (an offset into the bound element array buffer,
or the identity of a client-memory index array). Returns the new state, the
call trace, the computed index range (`none` when the range computation was
skipped), and the `outIndices` result (`some 0` models the null pointer
returned in the client-memory case). -/
def syncIndexData (env : Env) (snap : Snapshot) (st : VAState) (count : Nat)
    (indicesOffset : Nat) (attributesNeedStreaming : Bool) :
    VAState × List DeviceCall × Option IndexRange × Option Nat :=
  match snap.elementArrayBuffer with
  | some _ =>
    let rangeQuery :=
      if attributesNeedStreaming then
        ([DeviceCall.getIndexRangeQuery indicesOffset count], some env.bufferIndexRange)
      else
        (([] : List DeviceCall), (none : Option IndexRange))
    (st, rangeQuery.1, rangeQuery.2, some indicesOffset)
  | none =>
    let range := if attributesNeedStreaming then some env.computedIndexRange else none
    let gen :=
      if st.streamingElementArrayBuffer == 0 then
        (env.freshElementArrayBufferId, 0, [DeviceCall.genBuffers])
      else
        (st.streamingElementArrayBuffer, st.streamingElementArrayBufferSize,
         ([] : List DeviceCall))
    let st1 := { st with streamingElementArrayBuffer := gen.1,
                         streamingElementArrayBufferSize := gen.2.1 }
    let requiredStreamingBufferSize := env.indexTypeBytes * count
    let grow := growStreamingBuffer requiredStreamingBufferSize gen.2.1
    let dataCalls :=
      if grow.2 then
        [DeviceCall.bufferData BufferTarget.elementArray requiredStreamingBufferSize]
      else
        [DeviceCall.bufferSubData BufferTarget.elementArray 0 requiredStreamingBufferSize]
    ({ st1 with appliedElementArrayBuffer := none,
                streamingElementArrayBufferSize := grow.1 },
     gen.2.2 ++
       [DeviceCall.bindVertexArray st1.vertexArrayID (getAppliedElementArrayBufferID st1),
        DeviceCall.bindBuffer BufferTarget.elementArray gen.1] ++ dataCalls,
     range, some 0)

/-- Per-attribute body of
`VertexArrayGL::recoverForcedStreamingAttributesForDrawArraysInstanced`
(VertexArrayGL.cpp:548-570): rebind the attribute's real buffer, re-issue
the pointer call with the binding's stride and offset, and restore the
applied-state cache to track the original buffer. -/
def recoverAttrib (snap : Snapshot)
    (acc : List VertexAttribute × List VertexBinding × List DeviceCall) (idx : Nat) :
    List VertexAttribute × List VertexBinding × List DeviceCall :=
  let attrib := snap.attribs.getD idx defaultAttribute
  let binding := snap.bindings.getD attrib.bindingIndex defaultBinding
  let bufferId := match binding.buffer with
    | some b => b
    | none => 0
  let calls :=
    DeviceCall.bindBuffer BufferTarget.array bufferId ::
      callVertexAttribPointer idx attrib binding.stride binding.offset
  let newAttr :=
    { acc.1.getD idx defaultAttribute with
      format := attrib.format, relativeOffset := 0, bindingIndex := attrib.bindingIndex }
  let newBind :=
    { acc.2.1.getD idx defaultBinding with
      stride := binding.stride, offset := binding.offset, buffer := binding.buffer }
  (acc.1.set idx newAttr, acc.2.1.set idx newBind, acc.2.2 ++ calls)

/-- `VertexArrayGL::recoverForcedStreamingAttributesForDrawArraysInstanced`
(VertexArrayGL.cpp:533, the two-argument overload). Returns the new state,
the reset value of the passed-in attribute mask (the source resets it in
place), and the call trace. Note line 573: the whole
`mForcedStreamingAttributesFirstOffsets` array is refilled with zero. -/
def recoverForcedStreamingAttributesForDrawArraysInstanced (snap : Snapshot)
    (st : VAState) (attributeMask : List Bool) : VAState × List Bool × List DeviceCall :=
  if maskAny attributeMask then
    let acc := (maskIndices attributeMask).foldl (recoverAttrib snap)
      (st.appliedAttributes, st.appliedBindings, ([] : List DeviceCall))
    ({ st with appliedAttributes := acc.1, appliedBindings := acc.2.1,
               forcedStreamingAttributesFirstOffsets :=
                 st.forcedStreamingAttributesFirstOffsets.map (fun _ => 0) },
     attributeMask.map (fun _ => false),
     DeviceCall.bindVertexArray st.vertexArrayID (getAppliedElementArrayBufferID st) ::
       acc.2.2)
  else
    (st, attributeMask, [])

/-- The loop of `VertexArrayGL::applyNumViewsToDivisor`
(VertexArrayGL.cpp:928-931): run `updateBindingDivisor` on every binding
slot, threading the applied bindings and the instanced-attribute mask.
`i` is the index of the first slot of `applied`. -/
def applyDivisorsLoop (supportBinding : Bool) (numViews : Nat)
    (snapBindings : List VertexBinding) :
    Nat → List VertexBinding → List Bool →
      List VertexBinding × List Bool × List DeviceCall
  | _, [], mask => ([], mask, [])
  | i, b :: rest, mask =>
    let r := updateBindingDivisor i (snapBindings.getD i defaultBinding).divisor numViews
      supportBinding b mask
    let tail := applyDivisorsLoop supportBinding numViews snapBindings (i + 1) rest r.2.1
    (r.1 :: tail.1, tail.2.1, r.2.2 ++ tail.2.2)

/-- `VertexArrayGL::applyNumViewsToDivisor` (VertexArrayGL.cpp:921): when
the view count changes, store it and rerun `updateBindingDivisor` on every
binding slot. -/
def applyNumViewsToDivisor (supportBinding : Bool) (snap : Snapshot) (st : VAState)
    (numViews : Nat) : VAState × List DeviceCall :=
  if numViews == st.appliedNumViews then
    (st, [])
  else
    let r := applyDivisorsLoop supportBinding numViews snap.bindings 0
      st.appliedBindings st.instancedAttributesMask
    ({ st with appliedNumViews := numViews, appliedBindings := r.1,
               instancedAttributesMask := r.2.1 },
     DeviceCall.bindVertexArray st.vertexArrayID (getAppliedElementArrayBufferID st) ::
       r.2.2)

/-- Loop body of the instanced-offset workaround in
`VertexArrayGL::syncDrawState` (VertexArrayGL.cpp:191-200): a candidate
attribute whose recorded first offset differs from this draw's `first` is
added to the streaming mask and the forced-streaming mask, and its offset
is recorded. The accumulator is (updated streaming mask, forced mask,
first-offsets array). -/
def forcedStreamingStep (first : Nat) (acc : List Bool × List Bool × List Nat)
    (attribIndex : Nat) : List Bool × List Bool × List Nat :=
  if acc.2.2.getD attribIndex 0 != first then
    (maskSet acc.1 attribIndex true, maskSet acc.2.1 attribIndex true,
     acc.2.2.set attribIndex first)
  else
    acc

/-- `VertexArrayGL::syncDrawState` (VertexArrayGL.cpp:156).
`needsStreamingAttribs` is the context state cache's active client
attributes mask; `indexed` is `type != DrawElementsType::InvalidEnum`;
`indicesOffset` is the `indices` argument. Returns the new state, the call
trace, the result, and `outIndices` (`none` for a non-indexed draw). -/
def syncDrawState (env : Env) (snap : Snapshot) (st : VAState)
    (needsStreamingAttribs : List Bool) (first count : Nat) (indexed : Bool)
    (indicesOffset instanceCount : Nat) :
    VAState × List DeviceCall × AngleResult × Option Nat :=
  let needsAny := maskAny needsStreamingAttribs
  if indexed then
    let r := syncIndexData env snap st count indicesOffset needsAny
    if needsAny then
      let range := match r.2.2.1 with
        | some rg => rg
        | none => { start := 0, stop := 0 }
      let s := streamAttributes env snap r.1 needsStreamingAttribs instanceCount range false
      (s.1, r.2.1 ++ s.2.1, s.2.2.2, r.2.2.2)
    else
      (r.1, r.2.1, AngleResult.Continue, r.2.2.2)
  else
    let indexRange : IndexRange := { start := first, stop := first + count - 1 }
    if env.shiftInstancedArrayDataWithExtraOffset && 0 < first then
      let candidates := List.zipWith Bool.and st.instancedAttributesMask
        st.programActiveAttribLocationsMask
      let upd := (maskIndices candidates).foldl (forcedStreamingStep first)
        (needsStreamingAttribs, st.forcedStreamingAttributesForDrawArraysInstancedMask,
         st.forcedStreamingAttributesFirstOffsets)
      let st1 := { st with
        forcedStreamingAttributesForDrawArraysInstancedMask := upd.2.1,
        forcedStreamingAttributesFirstOffsets := upd.2.2 }
      let recoverMask := List.zipWith Bool.xor candidates
        st1.forcedStreamingAttributesForDrawArraysInstancedMask
      let recovered :=
        if maskAny recoverMask then
          let r := recoverForcedStreamingAttributesForDrawArraysInstanced snap st1
            recoverMask
          ({ r.1 with forcedStreamingAttributesForDrawArraysInstancedMask := candidates },
           r.2.2)
        else
          (st1, ([] : List DeviceCall))
      if maskAny upd.1 then
        let s := streamAttributes env snap recovered.1 upd.1 instanceCount indexRange true
        (s.1, recovered.2 ++ s.2.1, s.2.2.2, none)
      else
        (recovered.1, recovered.2, AngleResult.Continue, none)
    else if needsAny then
      let s := streamAttributes env snap st needsStreamingAttribs instanceCount
        indexRange false
      (s.1, s.2.1, s.2.2.2, none)
    else
      (st, [], AngleResult.Continue, none)

/-! ## Theorems -/

/-- Helper: setting an in-range bit of a bitset makes its test read back the
written value. -/
theorem maskTest_maskSet_self (m : List Bool) (i : Nat) (b : Bool) (h : i < m.length) :
    maskTest (maskSet m i b) i = b := by
  unfold maskTest maskSet
  rw [List.getD_eq_getElem _ _ (by simpa using h)]
  simp [List.getElem_set]

/-- Helper: a bit that tests true is in range (out-of-range tests read the
default `false`). -/
theorem lt_length_of_maskTest_true (m : List Bool) (i : Nat)
    (h : maskTest m i = true) : i < m.length := by
  by_contra hc
  unfold maskTest at h
  rw [List.getD_eq_default _ _ (by omega)] at h
  exact absurd h (by simp)

/-- C3: an attribute-format device update is skipped exactly when the
applied attribute and the snapshot attribute agree on the format descriptor
and the relative offset (`SameVertexAttribFormat`), and a binding device
update is skipped exactly when the applied binding and the snapshot binding
agree on stride, offset, and buffer object identity (`SameVertexBuffer`). -/
theorem format_and_binding_updates_skipped_iff_cache_matches
    (attribIndex bindingIndex : Nat) (attrib applied : VertexAttribute)
    (binding appliedBinding : VertexBinding) :
    ((updateAttribFormat attribIndex attrib applied).2 = [] ↔
      (applied.format = attrib.format ∧ applied.relativeOffset = attrib.relativeOffset)) ∧
    ((updateBindingBuffer bindingIndex binding appliedBinding).2 = [] ↔
      (appliedBinding.stride = binding.stride ∧ appliedBinding.offset = binding.offset ∧
        appliedBinding.buffer = binding.buffer)) := by
  constructor
  · cases h : SameVertexAttribFormat applied attrib with
    | false =>
      have h' : ¬ (applied.format = attrib.format ∧
          applied.relativeOffset = attrib.relativeOffset) := by
        rintro ⟨h1, h2⟩
        simp [SameVertexAttribFormat, h1, h2] at h
      simp only [updateAttribFormat, h, Bool.false_eq_true, if_false]
      simpa using h'
    | true =>
      have h' : applied.format = attrib.format ∧
          applied.relativeOffset = attrib.relativeOffset := by
        have h2 := h
        simp only [SameVertexAttribFormat, Bool.and_eq_true, beq_iff_eq] at h2
        exact h2
      simp [updateAttribFormat, h, h']
  · cases h : SameVertexBuffer appliedBinding binding with
    | false =>
      have h' : ¬ (appliedBinding.stride = binding.stride ∧
          appliedBinding.offset = binding.offset ∧
          appliedBinding.buffer = binding.buffer) := by
        rintro ⟨h1, h2, h3⟩
        simp [SameVertexBuffer, h1, h2, h3] at h
      simp only [updateBindingBuffer, h, Bool.false_eq_true, if_false]
      simpa using h'
    | true =>
      have h' : appliedBinding.stride = binding.stride ∧
          appliedBinding.offset = binding.offset ∧
          appliedBinding.buffer = binding.buffer := by
        have h2 := h
        simp only [SameVertexBuffer, Bool.and_eq_true, beq_iff_eq] at h2
        tauto
      simp [updateBindingBuffer, h, h']

/-- C2 counterexample: the claim fails for the attribute-pointer updater.
With a snapshot attribute whose `relativeOffset` is 1 and a buffer-backed
binding, the first pass of `updateAttribPointer` writes `relativeOffset = 0`
into the applied-state cache (mirroring the driver side effect of
`VertexAttribPointer`), so the second pass's equality check fails and the
device calls are issued again: the second run's call list is not empty. -/
theorem updateAttribPointer_second_run_not_absorbed :
    ¬ ((updateAttribPointer 0
          { enabled := true, format := ⟨1, false⟩, relativeOffset := 1,
            bindingIndex := 0, pointer := none }
          { buffer := some 5, stride := 12, offset := 0, divisor := 0 }
          (updateAttribPointer 0
            { enabled := true, format := ⟨1, false⟩, relativeOffset := 1,
              bindingIndex := 0, pointer := none }
            { buffer := some 5, stride := 12, offset := 0, divisor := 0 }
            defaultAttribute defaultBinding).1
          (updateAttribPointer 0
            { enabled := true, format := ⟨1, false⟩, relativeOffset := 1,
              bindingIndex := 0, pointer := none }
            { buffer := some 5, stride := 12, offset := 0, divisor := 0 }
            defaultAttribute defaultBinding).2.1).2.2 = []) := by
  decide

/-- C2 (amended): rerunning every updater on the applied state produced by
its own first run issues zero device calls — unconditionally for the
enable, format, binding-index, binding-buffer and divisor updaters, and for
the attribute-pointer updater provided the snapshot attribute has
`relativeOffset = 0` and `bindingIndex` equal to its own attribute index
(the configuration the pointer path caches). -/
theorem second_sync_issues_no_device_calls
    (attribIndex bindingIdx snapshotDivisor numViews : Nat)
    (attrib applied : VertexAttribute) (active supportBinding : Bool)
    (binding appliedBinding : VertexBinding) (instancedMask : List Bool) :
    (updateAttribEnabled attribIndex attrib active
        (updateAttribEnabled attribIndex attrib active applied).1).2 = [] ∧
    (attrib.relativeOffset = 0 → attrib.bindingIndex = attribIndex →
      (updateAttribPointer attribIndex attrib binding
        (updateAttribPointer attribIndex attrib binding applied appliedBinding).1
        (updateAttribPointer attribIndex attrib binding applied appliedBinding).2.1).2.2
      = []) ∧
    (updateAttribFormat attribIndex attrib
        (updateAttribFormat attribIndex attrib applied).1).2 = [] ∧
    (updateAttribBinding attribIndex bindingIdx
        (updateAttribBinding attribIndex bindingIdx applied).1).2 = [] ∧
    (updateBindingBuffer bindingIdx binding
        (updateBindingBuffer bindingIdx binding appliedBinding).1).2 = [] ∧
    (updateBindingDivisor bindingIdx snapshotDivisor numViews supportBinding
        (updateBindingDivisor bindingIdx snapshotDivisor numViews supportBinding
          appliedBinding instancedMask).1
        (updateBindingDivisor bindingIdx snapshotDivisor numViews supportBinding
          appliedBinding instancedMask).2.1).2.2 = [] := by
  refine ⟨?_, ?_, ?_, ?_, ?_, ?_⟩
  · cases h : applied.enabled == (attrib.enabled && active) with
    | true =>
      rw [beq_iff_eq] at h
      simp [updateAttribEnabled, h]
    | false =>
      have hneg : ¬ ((applied.enabled == (attrib.enabled && active)) = true) := by simp [h]
      simp only [updateAttribEnabled]
      rw [if_neg hneg]
      simp
  · intro hro hbi
    cases hb : binding.buffer with
    | none => simp [updateAttribPointer, hb]
    | some bufId =>
      cases h : (SameVertexAttribFormat applied attrib
          && applied.bindingIndex == attrib.bindingIndex
          && SameVertexBuffer appliedBinding binding) with
      | true =>
        simp only [Bool.and_eq_true, beq_iff_eq] at h
        obtain ⟨⟨hf, hbi2⟩, hbuf⟩ := h
        simp [updateAttribPointer, hb, hf, hbi2, hbuf]
      | false =>
        have hneg : ¬ ((SameVertexAttribFormat applied attrib
            && applied.bindingIndex == attrib.bindingIndex
            && SameVertexBuffer appliedBinding binding) = true) := by simp [h]
        simp only [updateAttribPointer, hb]
        rw [if_neg hneg]
        simp [SameVertexAttribFormat, SameVertexBuffer, hro, hbi, hb]
  · cases h : SameVertexAttribFormat applied attrib with
    | true => simp [updateAttribFormat, h]
    | false =>
      have hneg : ¬ (SameVertexAttribFormat applied attrib = true) := by simp [h]
      simp only [updateAttribFormat]
      rw [if_neg hneg]
      simp [SameVertexAttribFormat]
  · cases h : applied.bindingIndex == bindingIdx with
    | true =>
      rw [beq_iff_eq] at h
      simp [updateAttribBinding, h]
    | false =>
      have hneg : ¬ ((applied.bindingIndex == bindingIdx) = true) := by simp [h]
      simp only [updateAttribBinding]
      rw [if_neg hneg]
      simp
  · cases h : SameVertexBuffer appliedBinding binding with
    | true => simp [updateBindingBuffer, h]
    | false =>
      have hneg : ¬ (SameVertexBuffer appliedBinding binding = true) := by simp [h]
      simp only [updateBindingBuffer]
      rw [if_neg hneg]
      simp [SameVertexBuffer]
  · cases h : appliedBinding.divisor == GetAdjustedDivisor numViews snapshotDivisor with
    | true => simp [updateBindingDivisor, h]
    | false =>
      have hneg : ¬ ((appliedBinding.divisor ==
          GetAdjustedDivisor numViews snapshotDivisor) = true) := by simp [h]
      simp only [updateBindingDivisor]
      rw [if_neg hneg]
      simp

/-- C2 witness: the amended theorem applied at a concrete input satisfying
its hypotheses. -/
theorem second_sync_issues_no_device_calls_witness :
    (({ enabled := true, format := ⟨1, false⟩, relativeOffset := 0, bindingIndex := 0,
        pointer := none } : VertexAttribute).relativeOffset = 0) ∧
    (updateAttribPointer 0
        { enabled := true, format := ⟨1, false⟩, relativeOffset := 0, bindingIndex := 0,
          pointer := none }
        { buffer := some 5, stride := 12, offset := 0, divisor := 0 }
        (updateAttribPointer 0
          { enabled := true, format := ⟨1, false⟩, relativeOffset := 0, bindingIndex := 0,
            pointer := none }
          { buffer := some 5, stride := 12, offset := 0, divisor := 0 }
          defaultAttribute defaultBinding).1
        (updateAttribPointer 0
          { enabled := true, format := ⟨1, false⟩, relativeOffset := 0, bindingIndex := 0,
            pointer := none }
          { buffer := some 5, stride := 12, offset := 0, divisor := 0 }
          defaultAttribute defaultBinding).2.1).2.2 = [] := by
  refine ⟨rfl, ?_⟩
  exact (second_sync_issues_no_device_calls 0 1 2 3
    { enabled := true, format := ⟨1, false⟩, relativeOffset := 0, bindingIndex := 0,
      pointer := none }
    defaultAttribute true true
    { buffer := some 5, stride := 12, offset := 0, divisor := 0 }
    defaultBinding []).2.1 rfl rfl

/-- C6: assuming the standing invariant that the instanced-attribute mask
bit reflects whether the applied divisor is positive (true initially: both
start at zero/cleared, and only `updateBindingDivisor` touches either),
after any binding-divisor update the mask bit for that binding index is set
if and only if the adjusted divisor (base divisor × view count) just
applied is greater than zero. -/
theorem instanced_mask_tracks_adjusted_divisor
    (bindingIndex snapshotDivisor numViews : Nat) (supportBinding : Bool)
    (applied : VertexBinding) (instancedMask : List Bool)
    (hlen : bindingIndex < instancedMask.length)
    (hinv : maskTest instancedMask bindingIndex = decide (0 < applied.divisor)) :
    maskTest (updateBindingDivisor bindingIndex snapshotDivisor numViews supportBinding
        applied instancedMask).2.1 bindingIndex =
      decide (0 < GetAdjustedDivisor numViews snapshotDivisor) := by
  by_cases h : applied.divisor = GetAdjustedDivisor numViews snapshotDivisor
  · rw [h] at hinv
    simpa [updateBindingDivisor, h] using hinv
  · by_cases hd : 0 < GetAdjustedDivisor numViews snapshotDivisor
    · simp only [updateBindingDivisor, beq_iff_eq]
      rw [if_neg h, if_pos hd]
      simp [maskTest_maskSet_self _ _ _ hlen, hd]
    · simp only [updateBindingDivisor, beq_iff_eq]
      rw [if_neg h, if_neg hd]
      cases ht : maskTest instancedMask bindingIndex with
      | true =>
        simp only [ht, if_true]
        simp [maskTest_maskSet_self _ _ _ hlen, hd]
      | false =>
        simp only [ht, Bool.false_eq_true, if_false]
        simp [ht, hd]

/-- C6 witness: the theorem applied at a concrete input (binding 0, base
divisor 3, 2 views, applied divisor 0, mask cleared). -/
theorem instanced_mask_tracks_adjusted_divisor_witness :
    (0 : Nat) < ([false] : List Bool).length ∧
    maskTest [false] 0 = decide (0 < defaultBinding.divisor) ∧
    maskTest (updateBindingDivisor 0 3 2 true defaultBinding [false]).2.1 0 =
      decide (0 < GetAdjustedDivisor 2 3) :=
  ⟨by decide, by decide,
   instanced_mask_tracks_adjusted_divisor 0 3 2 true defaultBinding [false]
     (by decide) (by decide)⟩

/-- Helper: every device call issued by a single `updateBindingDivisor` run
carries the adjusted divisor `numViews * snapshotDivisor`. -/
theorem updateBindingDivisor_call_value (bindingIndex snapshotDivisor numViews : Nat)
    (supportBinding : Bool) (applied : VertexBinding) (instancedMask : List Bool) :
    ∀ c ∈ (updateBindingDivisor bindingIndex snapshotDivisor numViews supportBinding
        applied instancedMask).2.2,
      c = (if supportBinding then
            DeviceCall.vertexBindingDivisor bindingIndex
              (GetAdjustedDivisor numViews snapshotDivisor)
           else
            DeviceCall.vertexAttribDivisor bindingIndex
              (GetAdjustedDivisor numViews snapshotDivisor)) := by
  by_cases h : applied.divisor = GetAdjustedDivisor numViews snapshotDivisor
  · simp [updateBindingDivisor, h]
  · simp only [updateBindingDivisor, beq_iff_eq]
    rw [if_neg h]
    intro c hc
    simpa using hc

/-- Helper: after any `updateBindingDivisor` run (skipped or not), the
applied divisor equals the adjusted divisor. -/
theorem updateBindingDivisor_applied (bindingIndex snapshotDivisor numViews : Nat)
    (supportBinding : Bool) (applied : VertexBinding) (instancedMask : List Bool) :
    (updateBindingDivisor bindingIndex snapshotDivisor numViews supportBinding
        applied instancedMask).1.divisor = GetAdjustedDivisor numViews snapshotDivisor := by
  by_cases h : applied.divisor = GetAdjustedDivisor numViews snapshotDivisor
  · simp [updateBindingDivisor, h]
  · simp only [updateBindingDivisor, beq_iff_eq]
    rw [if_neg h]

/-- Helper: after `applyDivisorsLoop`, every slot's applied divisor is the
corresponding snapshot divisor times the view count. -/
theorem applyDivisorsLoop_applied (supportBinding : Bool) (numViews : Nat)
    (snapBindings : List VertexBinding) :
    ∀ (applied : List VertexBinding) (i : Nat) (mask : List Bool) (k : Nat),
      k < applied.length →
      ((applyDivisorsLoop supportBinding numViews snapBindings i applied mask).1.getD k
          defaultBinding).divisor =
        GetAdjustedDivisor numViews (snapBindings.getD (i + k) defaultBinding).divisor := by
  intro applied
  induction applied with
  | nil => intro i mask k hk; simp at hk
  | cons b rest ih =>
    intro i mask k hk
    cases k with
    | zero =>
      simpa [applyDivisorsLoop] using
        updateBindingDivisor_applied i (snapBindings.getD i defaultBinding).divisor
          numViews supportBinding b mask
    | succ k =>
      have hk' : k < rest.length := by simpa using hk
      have := ih (i + 1) (updateBindingDivisor i
        (snapBindings.getD i defaultBinding).divisor numViews supportBinding b mask).2.1 k hk'
      have harith : i + 1 + k = i + (k + 1) := by omega
      rw [harith] at this
      simpa [applyDivisorsLoop] using this

/-- C5: every divisor value pushed to the device by the divisor updater is
the snapshot binding's base divisor multiplied by the applied view count;
and when the active view count changes, `applyNumViewsToDivisor` records
the new view count and recomputes every binding slot's applied divisor with
the new multiplier. -/
theorem divisor_is_base_times_view_count
    (supportBinding : Bool) (snap : Snapshot) (st : VAState)
    (numViews bindingIndex snapshotDivisor : Nat)
    (applied : VertexBinding) (instancedMask : List Bool)
    (hviews : numViews ≠ st.appliedNumViews) :
    (∀ c ∈ (updateBindingDivisor bindingIndex snapshotDivisor numViews supportBinding
        applied instancedMask).2.2,
      c = (if supportBinding then
            DeviceCall.vertexBindingDivisor bindingIndex
              (GetAdjustedDivisor numViews snapshotDivisor)
           else
            DeviceCall.vertexAttribDivisor bindingIndex
              (GetAdjustedDivisor numViews snapshotDivisor))) ∧
    (applyNumViewsToDivisor supportBinding snap st numViews).1.appliedNumViews = numViews ∧
    (∀ k < st.appliedBindings.length,
      ((applyNumViewsToDivisor supportBinding snap st numViews).1.appliedBindings.getD k
          defaultBinding).divisor =
        GetAdjustedDivisor numViews (snap.bindings.getD k defaultBinding).divisor) := by
  have hne : ¬ ((numViews == st.appliedNumViews) = true) := by simp [hviews]
  refine ⟨updateBindingDivisor_call_value _ _ _ _ _ _, ?_, ?_⟩
  · simp only [applyNumViewsToDivisor]
    rw [if_neg hne]
  · intro k hk
    simp only [applyNumViewsToDivisor]
    rw [if_neg hne]
    simpa using applyDivisorsLoop_applied supportBinding numViews snap.bindings
      st.appliedBindings 0 st.instancedAttributesMask k hk

/-- C5 witness: the theorem applied at a concrete input (view count changes
from 1 to 2, one binding with base divisor 3). -/
theorem divisor_is_base_times_view_count_witness :
    (2 : Nat) ≠ 1 ∧
    ((applyNumViewsToDivisor true
        { attribs := [defaultAttribute],
          bindings := [{ buffer := none, stride := 0, offset := 0, divisor := 3 }],
          elementArrayBuffer := none }
        { vertexArrayID := 1, appliedNumViews := 1, appliedElementArrayBuffer := none,
          appliedAttributes := [defaultAttribute], appliedBindings := [defaultBinding],
          streamingElementArrayBufferSize := 0, streamingElementArrayBuffer := 0,
          streamingArrayBufferSize := 0, streamingArrayBuffer := 0,
          instancedAttributesMask := [false],
          forcedStreamingAttributesForDrawArraysInstancedMask := [false],
          forcedStreamingAttributesFirstOffsets := [0],
          programActiveAttribLocationsMask := [false] } 2).1.appliedNumViews = 2) ∧
    (((applyNumViewsToDivisor true
        { attribs := [defaultAttribute],
          bindings := [{ buffer := none, stride := 0, offset := 0, divisor := 3 }],
          elementArrayBuffer := none }
        { vertexArrayID := 1, appliedNumViews := 1, appliedElementArrayBuffer := none,
          appliedAttributes := [defaultAttribute], appliedBindings := [defaultBinding],
          streamingElementArrayBufferSize := 0, streamingElementArrayBuffer := 0,
          streamingArrayBufferSize := 0, streamingArrayBuffer := 0,
          instancedAttributesMask := [false],
          forcedStreamingAttributesForDrawArraysInstancedMask := [false],
          forcedStreamingAttributesFirstOffsets := [0],
          programActiveAttribLocationsMask := [false] } 2).1.appliedBindings.getD 0
        defaultBinding).divisor = 6) := by
  refine ⟨by decide, ?_, ?_⟩
  · exact (divisor_is_base_times_view_count true _ _ 2 0 0 defaultBinding []
      (by decide)).2.1
  · have := (divisor_is_base_times_view_count true
      { attribs := [defaultAttribute],
        bindings := [{ buffer := none, stride := 0, offset := 0, divisor := 3 }],
        elementArrayBuffer := none }
      { vertexArrayID := 1, appliedNumViews := 1, appliedElementArrayBuffer := none,
        appliedAttributes := [defaultAttribute], appliedBindings := [defaultBinding],
        streamingElementArrayBufferSize := 0, streamingElementArrayBuffer := 0,
        streamingArrayBufferSize := 0, streamingArrayBuffer := 0,
        instancedAttributesMask := [false],
        forcedStreamingAttributesForDrawArraysInstancedMask := [false],
        forcedStreamingAttributesFirstOffsets := [0],
        programActiveAttribLocationsMask := [false] } 2 0 0 defaultBinding []
      (by decide)).2.2 0 (by decide)
    simpa [GetAdjustedDivisor] using this

/-- Capacity of a streaming buffer after a sequence of draws, each applying
the code's growth step with its required byte size. -/
def streamingBufferCapacityAfter (reqs : List Nat) (capacity : Nat) : Nat :=
  reqs.foldl (fun cap r => (growStreamingBuffer r cap).1) capacity

/-- Helper: the growth step never shrinks the capacity. -/
theorem growStreamingBuffer_le (requiredSize capacity : Nat) :
    capacity ≤ (growStreamingBuffer requiredSize capacity).1 := by
  unfold growStreamingBuffer
  split <;> omega

/-- Helper: capacity is monotone across any sequence of draws. -/
theorem streamingBufferCapacityAfter_le (reqs : List Nat) :
    ∀ capacity, capacity ≤ streamingBufferCapacityAfter reqs capacity := by
  induction reqs with
  | nil => intro capacity; simp [streamingBufferCapacityAfter]
  | cons r rest ih =>
    intro capacity
    calc capacity ≤ (growStreamingBuffer r capacity).1 := growStreamingBuffer_le r capacity
    _ ≤ streamingBufferCapacityAfter rest (growStreamingBuffer r capacity).1 := ih _
    _ = streamingBufferCapacityAfter (r :: rest) capacity := by
        simp [streamingBufferCapacityAfter]

/-- C8: the streaming-buffer growth step reallocates exactly when the
required size exceeds the capacity, reallocates to exactly the required
size, otherwise leaves the capacity alone with no allocation call; and once
a capacity of at least `C` is reached, no later draw in any sequence that
requires at most `C` bytes triggers a reallocation. -/
theorem streaming_buffer_growth_monotonic
    (requiredSize capacity c0 C : Nat) (reqs : List Nat)
    (hreach : C ≤ c0) (hle : requiredSize ≤ C) :
    ((growStreamingBuffer requiredSize capacity).2 = true ↔ capacity < requiredSize) ∧
    ((growStreamingBuffer requiredSize capacity).2 = true →
      (growStreamingBuffer requiredSize capacity).1 = requiredSize) ∧
    ((growStreamingBuffer requiredSize capacity).2 = false →
      (growStreamingBuffer requiredSize capacity).1 = capacity) ∧
    capacity ≤ (growStreamingBuffer requiredSize capacity).1 ∧
    (growStreamingBuffer requiredSize (streamingBufferCapacityAfter reqs c0)).2 = false := by
  have hcap : C ≤ streamingBufferCapacityAfter reqs c0 :=
    le_trans hreach (streamingBufferCapacityAfter_le reqs c0)
  refine ⟨?_, ?_, ?_, growStreamingBuffer_le _ _, ?_⟩
  · unfold growStreamingBuffer
    split <;> simp_all
  · unfold growStreamingBuffer
    split <;> simp_all
  · unfold growStreamingBuffer
    split <;> simp_all
  · unfold growStreamingBuffer
    split
    · omega
    · simp

/-- C8 witness: the theorem applied at concrete sizes (capacity 12 reached,
draws requiring 5 and 7 bytes follow, a draw requiring 9 ≤ 10 bytes does
not reallocate). -/
theorem streaming_buffer_growth_monotonic_witness :
    (10 : Nat) ≤ 12 ∧ (9 : Nat) ≤ 10 ∧
    (growStreamingBuffer 9 (streamingBufferCapacityAfter [5, 7] 12)).2 = false :=
  ⟨by decide, by decide,
   (streaming_buffer_growth_monotonic 9 3 12 10 [5, 7] (by decide) (by decide)).2.2.2.2⟩

/-- Helper: the two-accumulator fold of `computeStreamingAttributeSizes`
computes a running sum and a running maximum. -/
theorem streamingSizeStep_foldl (env : Env) (snap : Snapshot)
    (numViews instanceCount : Nat) (indexRange : IndexRange) :
    ∀ (l : List Nat) (a b : Nat),
      l.foldl (streamingSizeStep env snap numViews instanceCount indexRange) (a, b) =
        (a + (l.map (fun idx =>
            env.typeSize (snap.attribs.getD idx defaultAttribute) *
              ComputeVertexBindingElementCount
                (GetAdjustedDivisor numViews
                  (snap.bindings.getD (snap.attribs.getD idx defaultAttribute).bindingIndex
                    defaultBinding).divisor)
                indexRange.vertexCount instanceCount)).sum,
         l.foldl (fun m idx =>
            max m (env.typeSize (snap.attribs.getD idx defaultAttribute))) b) := by
  intro l
  induction l with
  | nil => intro a b; simp
  | cons idx l ih =>
    intro a b
    simp only [List.foldl_cons, List.map_cons, List.sum_cons, streamingSizeStep]
    rw [ih]
    simp [Nat.add_assoc]

/-- C7: for any set of streamed attributes, the computed streaming data
size is the sum over the set-bit indices of
`elementTypeSize × streamedElementCount`, where the streamed element count
of a divisor-0 attribute is the vertex count of the index range
(`end − start + 1`) and for an adjusted divisor > 0 it is
`ceil(instanceCount / adjustedDivisor)`; the tracked maximum is the maximum
element size over the set; and the total required buffer size adds slack of
`maxAttributeElementSize × (number of streamed attributes) ×
indexRange.start`. -/
theorem streaming_size_is_sum_of_element_sizes (env : Env) (snap : Snapshot)
    (numViews : Nat) (attribsToStream : List Bool) (instanceCount : Nat)
    (indexRange : IndexRange) :
    (computeStreamingAttributeSizes env snap numViews attribsToStream instanceCount
        indexRange).1 =
      ((maskIndices attribsToStream).map (fun idx =>
        env.typeSize (snap.attribs.getD idx defaultAttribute) *
          (if 0 < numViews *
              (snap.bindings.getD (snap.attribs.getD idx defaultAttribute).bindingIndex
                defaultBinding).divisor then
            (instanceCount + numViews *
                (snap.bindings.getD (snap.attribs.getD idx defaultAttribute).bindingIndex
                  defaultBinding).divisor - 1) /
              (numViews *
                (snap.bindings.getD (snap.attribs.getD idx defaultAttribute).bindingIndex
                  defaultBinding).divisor)
          else
            indexRange.stop - indexRange.start + 1))).sum ∧
    (computeStreamingAttributeSizes env snap numViews attribsToStream instanceCount
        indexRange).2 =
      (maskIndices attribsToStream).foldl (fun m idx =>
        max m (env.typeSize (snap.attribs.getD idx defaultAttribute))) 0 ∧
    streamAttributesRequiredSize env snap numViews attribsToStream instanceCount
        indexRange =
      (computeStreamingAttributeSizes env snap numViews attribsToStream instanceCount
          indexRange).1 +
        (computeStreamingAttributeSizes env snap numViews attribsToStream instanceCount
            indexRange).2 *
          maskCount attribsToStream * indexRange.start := by
  refine ⟨?_, ?_, ?_⟩
  · unfold computeStreamingAttributeSizes
    rw [streamingSizeStep_foldl]
    simp [ComputeVertexBindingElementCount, GetAdjustedDivisor, IndexRange.vertexCount]
  · unfold computeStreamingAttributeSizes
    rw [streamingSizeStep_foldl]
  · unfold streamAttributesRequiredSize
    ring

/-- C10: a `streamAttributes` call with a nonempty attribute mask whose
computed total streaming data size is zero returns `Continue` immediately:
no buffer is created or grown, nothing is mapped or unmapped, zero
fill-and-unmap cycles run, no device call of any kind is issued, and the
state (in particular the applied-state cache) is unchanged. -/
theorem streamAttributes_zero_size_is_noop (env : Env) (snap : Snapshot) (st : VAState)
    (attribsToStream : List Bool) (instanceCount : Nat) (indexRange : IndexRange)
    (applyWorkaround : Bool)
    (_hmask : maskAny attribsToStream = true)
    (hzero : (computeStreamingAttributeSizes env snap st.appliedNumViews attribsToStream
        instanceCount indexRange).1 = 0) :
    streamAttributes env snap st attribsToStream instanceCount indexRange
        applyWorkaround = (st, [], 0, AngleResult.Continue) := by
  simp only [streamAttributes]
  rw [if_pos (by simp [hzero])]

/-- C10 witness: the theorem applied at a concrete input — one enabled
attribute in the mask, an environment whose element type size is zero, so
the computed streaming size is zero. -/
theorem streamAttributes_zero_size_is_noop_witness :
    maskAny [true] = true ∧
    (computeStreamingAttributeSizes
        { typeSize := fun _ => 0, sourceStride := fun _ _ => 0, supportBinding := true,
          unmapOk := fun _ => true, indexTypeBytes := 4,
          bufferIndexRange := { start := 0, stop := 0 },
          computedIndexRange := { start := 0, stop := 0 },
          shiftInstancedArrayDataWithExtraOffset := false,
          freshArrayBufferId := 7, freshElementArrayBufferId := 8 }
        { attribs := [defaultAttribute], bindings := [defaultBinding],
          elementArrayBuffer := none }
        1 [true] 4 { start := 0, stop := 0 }).1 = 0 ∧
    streamAttributes
        { typeSize := fun _ => 0, sourceStride := fun _ _ => 0, supportBinding := true,
          unmapOk := fun _ => true, indexTypeBytes := 4,
          bufferIndexRange := { start := 0, stop := 0 },
          computedIndexRange := { start := 0, stop := 0 },
          shiftInstancedArrayDataWithExtraOffset := false,
          freshArrayBufferId := 7, freshElementArrayBufferId := 8 }
        { attribs := [defaultAttribute], bindings := [defaultBinding],
          elementArrayBuffer := none }
        { vertexArrayID := 1, appliedNumViews := 1, appliedElementArrayBuffer := none,
          appliedAttributes := [defaultAttribute], appliedBindings := [defaultBinding],
          streamingElementArrayBufferSize := 0, streamingElementArrayBuffer := 0,
          streamingArrayBufferSize := 0, streamingArrayBuffer := 0,
          instancedAttributesMask := [false],
          forcedStreamingAttributesForDrawArraysInstancedMask := [false],
          forcedStreamingAttributesFirstOffsets := [0],
          programActiveAttribLocationsMask := [true] }
        [true] 4 { start := 0, stop := 0 } false =
      ({ vertexArrayID := 1, appliedNumViews := 1, appliedElementArrayBuffer := none,
         appliedAttributes := [defaultAttribute], appliedBindings := [defaultBinding],
         streamingElementArrayBufferSize := 0, streamingElementArrayBuffer := 0,
         streamingArrayBufferSize := 0, streamingArrayBuffer := 0,
         instancedAttributesMask := [false],
         forcedStreamingAttributesForDrawArraysInstancedMask := [false],
         forcedStreamingAttributesFirstOffsets := [0],
         programActiveAttribLocationsMask := [true] }, [], 0, AngleResult.Continue) := by
  refine ⟨rfl, rfl, ?_⟩
  exact streamAttributes_zero_size_is_noop _ _ _ _ _ _ _ rfl rfl

/-- Helper: the retry loop performs at most `attempts - 1` further
fill-and-unmap cycles (the counter is pre-decremented before each check). -/
theorem streamLoop_cycle_bound
    (cycleFn : (List VertexAttribute × List VertexBinding) →
      (List VertexAttribute × List VertexBinding) × List DeviceCall)
    (unmapOk : Nat → Bool) :
    ∀ (attempts : Nat) (r : Bool) (cycles : Nat)
      (fillState : List VertexAttribute × List VertexBinding) (acc : List DeviceCall),
      (streamLoop cycleFn unmapOk attempts r cycles fillState acc).2.2.1 ≤
        cycles + (attempts - 1) := by
  intro attempts
  induction attempts with
  | zero =>
    intro r cycles fillState acc
    simp [streamLoop]
  | succ n ih =>
    intro r cycles fillState acc
    unfold streamLoop
    cases r with
    | true => simp
    | false =>
      by_cases hn : 0 < n
      · rw [if_neg (by simp), if_pos hn]
        have := ih (unmapOk cycles) (cycles + 1) (cycleFn fillState).1
          (acc ++ (cycleFn fillState).2)
        simp only []
        omega
      · rw [if_neg (by simp), if_neg hn]
        simp

/-- Helper: under persistently failing unmaps, the retry loop performs
exactly `attempts - 1` fill-and-unmap cycles and ends with a false unmap
result. -/
theorem streamLoop_persistent_failure
    (cycleFn : (List VertexAttribute × List VertexBinding) →
      (List VertexAttribute × List VertexBinding) × List DeviceCall)
    (unmapOk : Nat → Bool) (hfail : ∀ k, unmapOk k = false) :
    ∀ (attempts cycles : Nat)
      (fillState : List VertexAttribute × List VertexBinding) (acc : List DeviceCall),
      (streamLoop cycleFn unmapOk attempts false cycles fillState acc).2.2.1 =
          cycles + (attempts - 1) ∧
        (streamLoop cycleFn unmapOk attempts false cycles fillState acc).2.2.2 = false := by
  intro attempts
  induction attempts with
  | zero =>
    intro cycles fillState acc
    simp [streamLoop]
  | succ n ih =>
    intro cycles fillState acc
    unfold streamLoop
    by_cases hn : 0 < n
    · rw [if_neg (by simp), if_pos hn, hfail]
      have := ih (cycles + 1) (cycleFn fillState).1 (acc ++ (cycleFn fillState).2)
      refine ⟨?_, ?_⟩
      · simp only []
        rw [this.1]
        omega
      · simp only []
        exact this.2
    · rw [if_neg (by simp), if_neg hn]
      have hn0 : n = 0 := by omega
      subst hn0
      simp

/-- C1 counterexample: at a concrete input (one divisor-0 attribute of
element size 4, index range [0,0], persistently failing unmap),
`streamAttributes` performs exactly 4 fill-and-unmap cycles — not the 5 the
claim describes (the counter starts at 5 but is pre-decremented before each
check, so a 5th cycle is never attempted). -/
theorem streamAttributes_retry_count_is_not_five :
    (streamAttributes
        { typeSize := fun _ => 4, sourceStride := fun _ _ => 4, supportBinding := true,
          unmapOk := fun _ => false, indexTypeBytes := 4,
          bufferIndexRange := { start := 0, stop := 0 },
          computedIndexRange := { start := 0, stop := 0 },
          shiftInstancedArrayDataWithExtraOffset := false,
          freshArrayBufferId := 7, freshElementArrayBufferId := 8 }
        { attribs := [defaultAttribute], bindings := [defaultBinding],
          elementArrayBuffer := none }
        { vertexArrayID := 1, appliedNumViews := 1, appliedElementArrayBuffer := none,
          appliedAttributes := [defaultAttribute], appliedBindings := [defaultBinding],
          streamingElementArrayBufferSize := 0, streamingElementArrayBuffer := 0,
          streamingArrayBufferSize := 0, streamingArrayBuffer := 0,
          instancedAttributesMask := [false],
          forcedStreamingAttributesForDrawArraysInstancedMask := [false],
          forcedStreamingAttributesFirstOffsets := [0],
          programActiveAttribLocationsMask := [true] }
        [true] 1 { start := 0, stop := 0 } false).2.2.1 = 4 ∧
    ¬ ((streamAttributes
        { typeSize := fun _ => 4, sourceStride := fun _ _ => 4, supportBinding := true,
          unmapOk := fun _ => false, indexTypeBytes := 4,
          bufferIndexRange := { start := 0, stop := 0 },
          computedIndexRange := { start := 0, stop := 0 },
          shiftInstancedArrayDataWithExtraOffset := false,
          freshArrayBufferId := 7, freshElementArrayBufferId := 8 }
        { attribs := [defaultAttribute], bindings := [defaultBinding],
          elementArrayBuffer := none }
        { vertexArrayID := 1, appliedNumViews := 1, appliedElementArrayBuffer := none,
          appliedAttributes := [defaultAttribute], appliedBindings := [defaultBinding],
          streamingElementArrayBufferSize := 0, streamingElementArrayBuffer := 0,
          streamingArrayBufferSize := 0, streamingArrayBuffer := 0,
          instancedAttributesMask := [false],
          forcedStreamingAttributesForDrawArraysInstancedMask := [false],
          forcedStreamingAttributesFirstOffsets := [0],
          programActiveAttribLocationsMask := [true] }
        [true] 1 { start := 0, stop := 0 } false).2.2.1 = 5) := by
  constructor <;> decide

/-- C1 (amended): the engine retries the fill-and-unmap cycle at most 4
times in every run; under a persistently failing unmap (and a nonzero
streaming size so the loop is reached) it performs exactly 4 cycles, never
attempts a 5th, and then returns the recoverable out-of-memory error
instead of crashing. -/
theorem streamAttributes_unmap_retry_bound (env : Env) (snap : Snapshot) (st : VAState)
    (attribsToStream : List Bool) (instanceCount : Nat) (indexRange : IndexRange)
    (applyWorkaround : Bool)
    (hfail : ∀ k, env.unmapOk k = false)
    (hsize : (computeStreamingAttributeSizes env snap st.appliedNumViews attribsToStream
        instanceCount indexRange).1 ≠ 0) :
    (∀ (env2 : Env) (snap2 : Snapshot) (st2 : VAState),
      (streamAttributes env2 snap2 st2 attribsToStream instanceCount indexRange
          applyWorkaround).2.2.1 ≤ 4) ∧
    (streamAttributes env snap st attribsToStream instanceCount indexRange
        applyWorkaround).2.2.1 = 4 ∧
    (streamAttributes env snap st attribsToStream instanceCount indexRange
        applyWorkaround).2.2.2 = AngleResult.OutOfMemory := by
  have hloop := streamLoop_persistent_failure
    (streamFillCycle env snap applyWorkaround st.appliedNumViews
      (computeStreamingAttributeSizes env snap st.appliedNumViews attribsToStream
        instanceCount indexRange).2 instanceCount indexRange
      (if st.streamingArrayBuffer == 0 then (env.freshArrayBufferId, 0, [DeviceCall.genBuffers])
       else (st.streamingArrayBuffer, st.streamingArrayBufferSize,
         ([] : List DeviceCall))).1
      (streamAttributesRequiredSize env snap st.appliedNumViews attribsToStream
        instanceCount indexRange)
      attribsToStream)
    env.unmapOk hfail 5 0 (st.appliedAttributes, st.appliedBindings) []
  refine ⟨?_, ?_, ?_⟩
  · intro env2 snap2 st2
    simp only [streamAttributes]
    split
    · simp
    · have := streamLoop_cycle_bound
        (streamFillCycle env2 snap2 applyWorkaround st2.appliedNumViews
          (computeStreamingAttributeSizes env2 snap2 st2.appliedNumViews attribsToStream
            instanceCount indexRange).2 instanceCount indexRange
          (if st2.streamingArrayBuffer == 0 then
            (env2.freshArrayBufferId, 0, [DeviceCall.genBuffers])
           else (st2.streamingArrayBuffer, st2.streamingArrayBufferSize,
             ([] : List DeviceCall))).1
          (streamAttributesRequiredSize env2 snap2 st2.appliedNumViews attribsToStream
            instanceCount indexRange)
          attribsToStream)
        env2.unmapOk 5 false 0 (st2.appliedAttributes, st2.appliedBindings) []
      simpa using this
  · simp only [streamAttributes]
    rw [if_neg (by simpa using hsize)]
    simpa using hloop.1
  · simp only [streamAttributes]
    rw [if_neg (by simpa using hsize)]
    simp only [hloop.2, Bool.false_eq_true, if_false]

/-- C1 witness: the amended theorem applied at a concrete input with a
persistently failing unmap and a nonzero streaming size. -/
theorem streamAttributes_unmap_retry_bound_witness :
    (∀ k : Nat,
      ({ typeSize := fun _ => 4, sourceStride := fun _ _ => 4,
         supportBinding := true, unmapOk := fun _ => false, indexTypeBytes := 4,
         bufferIndexRange := { start := 0, stop := 0 },
         computedIndexRange := { start := 0, stop := 0 },
         shiftInstancedArrayDataWithExtraOffset := false,
         freshArrayBufferId := 7, freshElementArrayBufferId := 8 } : Env).unmapOk k =
      false) ∧
    (streamAttributes
        { typeSize := fun _ => 4, sourceStride := fun _ _ => 4, supportBinding := true,
          unmapOk := fun _ => false, indexTypeBytes := 4,
          bufferIndexRange := { start := 0, stop := 0 },
          computedIndexRange := { start := 0, stop := 0 },
          shiftInstancedArrayDataWithExtraOffset := false,
          freshArrayBufferId := 7, freshElementArrayBufferId := 8 }
        { attribs := [defaultAttribute], bindings := [defaultBinding],
          elementArrayBuffer := none }
        { vertexArrayID := 1, appliedNumViews := 1, appliedElementArrayBuffer := none,
          appliedAttributes := [defaultAttribute], appliedBindings := [defaultBinding],
          streamingElementArrayBufferSize := 0, streamingElementArrayBuffer := 0,
          streamingArrayBufferSize := 0, streamingArrayBuffer := 0,
          instancedAttributesMask := [false],
          forcedStreamingAttributesForDrawArraysInstancedMask := [false],
          forcedStreamingAttributesFirstOffsets := [0],
          programActiveAttribLocationsMask := [true] }
        [true] 2 { start := 0, stop := 0 } false).2.2.2 =
      AngleResult.OutOfMemory := by
  refine ⟨fun k => rfl, ?_⟩
  exact (streamAttributes_unmap_retry_bound _ _ _ [true] 2 { start := 0, stop := 0 }
    false (fun k => rfl) (by decide)).2.2

/-- C9: for an indexed draw whose indices live in a buffer object, the
backing buffer's cached index-range query is issued by `syncIndexData`
exactly when some attribute needs streaming; and when no attribute needs
streaming, the whole per-draw sync issues no call at all, leaves the state
unchanged, and returns `Continue`. -/
theorem index_range_query_is_lazy (env : Env) (snap : Snapshot) (st : VAState)
    (needsStreamingAttribs : List Bool) (first count indicesOffset instanceCount b : Nat)
    (hbuf : snap.elementArrayBuffer = some b) :
    (syncIndexData env snap st count indicesOffset true).2.1 =
        [DeviceCall.getIndexRangeQuery indicesOffset count] ∧
    (syncIndexData env snap st count indicesOffset false).2.1 = [] ∧
    (maskAny needsStreamingAttribs = false →
      syncDrawState env snap st needsStreamingAttribs first count true indicesOffset
          instanceCount =
        (st, [], AngleResult.Continue, some indicesOffset)) := by
  refine ⟨by simp [syncIndexData, hbuf], by simp [syncIndexData, hbuf], ?_⟩
  intro hm
  simp [syncDrawState, hm, syncIndexData, hbuf]

/-- C9 witness: the theorem applied at a concrete input (indices in buffer
object 3, no attribute needing streaming). -/
theorem index_range_query_is_lazy_witness :
    ({ attribs := [defaultAttribute], bindings := [defaultBinding],
       elementArrayBuffer := some 3 } : Snapshot).elementArrayBuffer = some 3 ∧
    maskAny [false] = false ∧
    syncDrawState
        { typeSize := fun _ => 4, sourceStride := fun _ _ => 4, supportBinding := true,
          unmapOk := fun _ => true, indexTypeBytes := 4,
          bufferIndexRange := { start := 0, stop := 0 },
          computedIndexRange := { start := 0, stop := 0 },
          shiftInstancedArrayDataWithExtraOffset := false,
          freshArrayBufferId := 7, freshElementArrayBufferId := 8 }
        { attribs := [defaultAttribute], bindings := [defaultBinding],
          elementArrayBuffer := some 3 }
        { vertexArrayID := 1, appliedNumViews := 1, appliedElementArrayBuffer := some 3,
          appliedAttributes := [defaultAttribute], appliedBindings := [defaultBinding],
          streamingElementArrayBufferSize := 0, streamingElementArrayBuffer := 0,
          streamingArrayBufferSize := 0, streamingArrayBuffer := 0,
          instancedAttributesMask := [false],
          forcedStreamingAttributesForDrawArraysInstancedMask := [false],
          forcedStreamingAttributesFirstOffsets := [0],
          programActiveAttribLocationsMask := [true] }
        [false] 0 6 true 9 1 =
      ({ vertexArrayID := 1, appliedNumViews := 1, appliedElementArrayBuffer := some 3,
         appliedAttributes := [defaultAttribute], appliedBindings := [defaultBinding],
         streamingElementArrayBufferSize := 0, streamingElementArrayBuffer := 0,
         streamingArrayBufferSize := 0, streamingArrayBuffer := 0,
         instancedAttributesMask := [false],
         forcedStreamingAttributesForDrawArraysInstancedMask := [false],
         forcedStreamingAttributesFirstOffsets := [0],
         programActiveAttribLocationsMask := [true] }, [], AngleResult.Continue,
       some 9) := by
  refine ⟨rfl, rfl, ?_⟩
  exact (index_range_query_is_lazy _ _ _ [false] 0 6 9 1 3 rfl).2.2 rfl

/-- C4 counterexample: recovery does not leave the recorded offsets of
still-forced attributes unchanged. With recorded first offsets `[7, 7]`
and a recovery mask selecting only attribute 0 (attribute 1 remains in the
forced-streaming set), the recovery call zeroes attribute 1's recorded
offset as well (`mForcedStreamingAttributesFirstOffsets.fill(0)` refills
the whole array): afterwards it is 0, not the unchanged 7 the claim
requires. -/
theorem recover_zeroes_offsets_of_still_forced_attributes :
    ((recoverForcedStreamingAttributesForDrawArraysInstanced
        { attribs := [{ enabled := true, format := ⟨1, false⟩, relativeOffset := 0,
                        bindingIndex := 0, pointer := none },
                      { enabled := true, format := ⟨1, false⟩, relativeOffset := 0,
                        bindingIndex := 1, pointer := none }],
          bindings := [{ buffer := some 5, stride := 12, offset := 0, divisor := 1 },
                       { buffer := some 6, stride := 16, offset := 4, divisor := 1 }],
          elementArrayBuffer := none }
        { vertexArrayID := 1, appliedNumViews := 1, appliedElementArrayBuffer := none,
          appliedAttributes := [defaultAttribute, defaultAttribute],
          appliedBindings := [defaultBinding, defaultBinding],
          streamingElementArrayBufferSize := 0, streamingElementArrayBuffer := 0,
          streamingArrayBufferSize := 0, streamingArrayBuffer := 4,
          instancedAttributesMask := [true, true],
          forcedStreamingAttributesForDrawArraysInstancedMask := [true, true],
          forcedStreamingAttributesFirstOffsets := [7, 7],
          programActiveAttribLocationsMask := [true, true] }
        [true, false]).1.forcedStreamingAttributesFirstOffsets.getD 1 0 = 0) ∧
    ¬ ((recoverForcedStreamingAttributesForDrawArraysInstanced
        { attribs := [{ enabled := true, format := ⟨1, false⟩, relativeOffset := 0,
                        bindingIndex := 0, pointer := none },
                      { enabled := true, format := ⟨1, false⟩, relativeOffset := 0,
                        bindingIndex := 1, pointer := none }],
          bindings := [{ buffer := some 5, stride := 12, offset := 0, divisor := 1 },
                       { buffer := some 6, stride := 16, offset := 4, divisor := 1 }],
          elementArrayBuffer := none }
        { vertexArrayID := 1, appliedNumViews := 1, appliedElementArrayBuffer := none,
          appliedAttributes := [defaultAttribute, defaultAttribute],
          appliedBindings := [defaultBinding, defaultBinding],
          streamingElementArrayBufferSize := 0, streamingElementArrayBuffer := 0,
          streamingArrayBufferSize := 0, streamingArrayBuffer := 4,
          instancedAttributesMask := [true, true],
          forcedStreamingAttributesForDrawArraysInstancedMask := [true, true],
          forcedStreamingAttributesFirstOffsets := [7, 7],
          programActiveAttribLocationsMask := [true, true] }
        [true, false]).1.forcedStreamingAttributesFirstOffsets.getD 1 0 = 7) := by
  constructor <;> decide

/-- C4 (amended): when the recovery mask is nonempty, recovery restores
each recovered attribute's real buffer binding via the normal
pointer-setting path — it binds the binding's real buffer, re-issues the
pointer call with the binding's stride and offset, and restores the applied
cache to the real binding — and it clears the recorded forced-first offsets
of every attribute to zero (the whole offsets array is refilled), not only
those of the recovered attributes; the passed mask is reset. -/
theorem recovery_restores_binding_and_clears_all_offsets
    (snap : Snapshot) (st : VAState) (attributeMask : List Bool)
    (acc : List VertexAttribute × List VertexBinding × List DeviceCall) (idx j : Nat)
    (hmask : maskAny attributeMask = true)
    (hidxA : idx < acc.1.length) (hidxB : idx < acc.2.1.length) :
    (recoverForcedStreamingAttributesForDrawArraysInstanced snap st
        attributeMask).1.forcedStreamingAttributesFirstOffsets.getD j 0 = 0 ∧
    (recoverForcedStreamingAttributesForDrawArraysInstanced snap st
        attributeMask).2.1.getD j false = false ∧
    ((recoverAttrib snap acc idx).2.1.getD idx defaultBinding).stride =
      (snap.bindings.getD (snap.attribs.getD idx defaultAttribute).bindingIndex
        defaultBinding).stride ∧
    ((recoverAttrib snap acc idx).2.1.getD idx defaultBinding).offset =
      (snap.bindings.getD (snap.attribs.getD idx defaultAttribute).bindingIndex
        defaultBinding).offset ∧
    ((recoverAttrib snap acc idx).2.1.getD idx defaultBinding).buffer =
      (snap.bindings.getD (snap.attribs.getD idx defaultAttribute).bindingIndex
        defaultBinding).buffer ∧
    ((recoverAttrib snap acc idx).1.getD idx defaultAttribute).bindingIndex =
      (snap.attribs.getD idx defaultAttribute).bindingIndex ∧
    ((recoverAttrib snap acc idx).1.getD idx defaultAttribute).relativeOffset = 0 ∧
    (recoverAttrib snap acc idx).2.2 = acc.2.2 ++
      (DeviceCall.bindBuffer BufferTarget.array
        ((snap.bindings.getD (snap.attribs.getD idx defaultAttribute).bindingIndex
          defaultBinding).buffer.getD 0) ::
        callVertexAttribPointer idx (snap.attribs.getD idx defaultAttribute)
          (snap.bindings.getD (snap.attribs.getD idx defaultAttribute).bindingIndex
            defaultBinding).stride
          (snap.bindings.getD (snap.attribs.getD idx defaultAttribute).bindingIndex
            defaultBinding).offset) := by
  have hgetB : ∀ (l : List VertexBinding) (b : VertexBinding) (h : idx < l.length),
      (l.set idx b).getD idx defaultBinding = b := by
    intro l b h
    rw [List.getD_eq_getElem _ _ (by simpa using h)]
    simp [List.getElem_set]
  have hgetA : ∀ (l : List VertexAttribute) (a : VertexAttribute) (h : idx < l.length),
      (l.set idx a).getD idx defaultAttribute = a := by
    intro l a h
    rw [List.getD_eq_getElem _ _ (by simpa using h)]
    simp [List.getElem_set]
  refine ⟨?_, ?_, ?_, ?_, ?_, ?_, ?_, ?_⟩
  · simp only [recoverForcedStreamingAttributesForDrawArraysInstanced, hmask, if_true]
    exact List.getD_map st.forcedStreamingAttributesFirstOffsets 0 (n := j)
      (fun _ => (0 : Nat))
  · simp only [recoverForcedStreamingAttributesForDrawArraysInstanced, hmask, if_true]
    exact List.getD_map attributeMask false (n := j) (fun _ => false)
  · simp only [recoverAttrib]
    rw [hgetB _ _ hidxB]
  · simp only [recoverAttrib]
    rw [hgetB _ _ hidxB]
  · simp only [recoverAttrib]
    rw [hgetB _ _ hidxB]
  · simp only [recoverAttrib]
    rw [hgetA _ _ hidxA]
  · simp only [recoverAttrib]
    rw [hgetA _ _ hidxA]
  · simp only [recoverAttrib]
    cases hb : (snap.bindings.getD (snap.attribs.getD idx defaultAttribute).bindingIndex
        defaultBinding).buffer <;> simp [hb]

/-- C4 witness: the amended theorem applied at a concrete input (recovery
mask selecting attribute 0 of two). -/
theorem recovery_restores_binding_and_clears_all_offsets_witness :
    maskAny [true, false] = true ∧ (0 : Nat) < 2 ∧
    ((recoverForcedStreamingAttributesForDrawArraysInstanced
        { attribs := [{ enabled := true, format := ⟨1, false⟩, relativeOffset := 0,
                        bindingIndex := 0, pointer := none }],
          bindings := [{ buffer := some 5, stride := 12, offset := 0, divisor := 1 }],
          elementArrayBuffer := none }
        { vertexArrayID := 1, appliedNumViews := 1, appliedElementArrayBuffer := none,
          appliedAttributes := [defaultAttribute, defaultAttribute],
          appliedBindings := [defaultBinding, defaultBinding],
          streamingElementArrayBufferSize := 0, streamingElementArrayBuffer := 0,
          streamingArrayBufferSize := 0, streamingArrayBuffer := 4,
          instancedAttributesMask := [true, false],
          forcedStreamingAttributesForDrawArraysInstancedMask := [true, false],
          forcedStreamingAttributesFirstOffsets := [7, 9],
          programActiveAttribLocationsMask := [true, true] }
        [true, false]).1.forcedStreamingAttributesFirstOffsets.getD 1 0 = 0) := by
  refine ⟨rfl, by decide, ?_⟩
  exact (recovery_restores_binding_and_clears_all_offsets _ _ [true, false]
    ([defaultAttribute, defaultAttribute], [defaultBinding, defaultBinding], []) 0 1
    rfl (by decide) (by decide)).1

end VertexArrayGL
